import Mathlib

/-!
Verification of the conversational memory store (ingestor / contextualizer /
qdrant wrapper).  Python dicts are embedded as association lists with unique
keys; fallible calls (HTTP requests, dict indexing) are embedded as `Option`;
the vector store is embedded as explicit state.  Embedding vectors and
similarity scores are never inspected by any property below, so their numeric
type is immaterial; they are carried as `List Int` / `Int`.
-/

/-- A payload value: the stored metadata is strings and integers. -/
inductive Val where
  | str (s : String)
  | int (n : Int)
deriving DecidableEq, Repr

/-- A Python dict with string keys, as an insertion-ordered association list
(keys unique, as in a dict). -/
abbrev Payload := List (String × Val)

/-- Dict lookup `d[k]` / `d.get(k)`: the binding of the first (only)
occurrence of the key. -/
def plookup : Payload → String → Option Val
  | [], _ => none
  | (k, v) :: rest, key => if k = key then some v else plookup rest key

/-- Dict assignment `d[k] = v`: replace the binding in place if the key is
present, append it otherwise. -/
def dictSet : Payload → String → Val → Payload
  | [], key, v => [(key, v)]
  | (k, w) :: rest, key, v =>
      if k = key then (key, v) :: rest else (k, w) :: dictSet rest key v

/-- Python `base.update(extra)`: assign every binding of `extra` into `base`,
left to right.  On a key conflict the value from `extra` wins. -/
def dictUpdate (base : Payload) : Payload → Payload
  | [] => base
  | (k, v) :: rest => dictUpdate (dictSet base k v) rest

@[simp] theorem plookup_nil (key : String) : plookup [] key = none := rfl

@[simp] theorem plookup_cons (k : String) (v : Val) (rest : Payload) (key : String) :
    plookup ((k, v) :: rest) key = if k = key then some v else plookup rest key := rfl

theorem plookup_dictSet_same (p : Payload) (k : String) (v : Val) :
    plookup (dictSet p k v) k = some v := by
  induction p with
  | nil => simp [dictSet]
  | cons kv rest ih =>
      obtain ⟨k', w⟩ := kv
      by_cases h : k' = k <;> simp [dictSet, h, ih]

theorem plookup_dictSet_other (p : Payload) (k : String) (v : Val) (key : String)
    (hne : k ≠ key) : plookup (dictSet p k v) key = plookup p key := by
  induction p with
  | nil => simp [dictSet, hne]
  | cons kv rest ih =>
      obtain ⟨k', w⟩ := kv
      by_cases h : k' = k
      · subst h
        simp [dictSet, hne]
      · simp [dictSet, h, ih]

theorem plookup_eq_none_of_not_mem (e : Payload) (key : String)
    (h : key ∉ e.map Prod.fst) : plookup e key = none := by
  induction e with
  | nil => rfl
  | cons kv rest ih =>
      obtain ⟨k, v⟩ := kv
      simp only [List.map_cons, List.mem_cons] at h
      push_neg at h
      simp [plookup, Ne.symm h.1, ih h.2]

theorem plookup_dictUpdate_of_not_mem (base e : Payload) (key : String)
    (h : key ∉ e.map Prod.fst) : plookup (dictUpdate base e) key = plookup base key := by
  induction e generalizing base with
  | nil => rfl
  | cons kv rest ih =>
      obtain ⟨k, v⟩ := kv
      simp only [List.map_cons, List.mem_cons] at h
      push_neg at h
      rw [dictUpdate, ih (dictSet base k v) h.2, plookup_dictSet_other base k v key (Ne.symm h.1)]

theorem plookup_dictUpdate_of_mem (base e : Payload) (key : String) (v : Val)
    (hnd : (e.map Prod.fst).Nodup) (hv : plookup e key = some v) :
    plookup (dictUpdate base e) key = some v := by
  induction e generalizing base with
  | nil => simp [plookup] at hv
  | cons kv rest ih =>
      obtain ⟨k, w⟩ := kv
      simp only [List.map_cons, List.nodup_cons] at hnd
      by_cases h : k = key
      · subst h
        rw [plookup_cons, if_pos rfl] at hv
        injection hv with hv
        subst hv
        rw [dictUpdate, plookup_dictUpdate_of_not_mem (dictSet base k w) rest k hnd.1,
          plookup_dictSet_same]
      · rw [plookup_cons, if_neg h] at hv
        rw [dictUpdate]
        exact ih (dictSet base k w) hnd.2 hv

/-- Ingestor `Item` after pydantic validation: `timestamp` has already been
defaulted by the `_ts` validator, `role` defaulted to `"user"`,
`extra_payload` left as given. -/
structure Item where
  text : String
  conversation_id : String
  role : String
  timestamp : Int
  extra_payload : Option Payload
deriving DecidableEq, Repr

/-- The `_ts` validator of `Item` (`pre=True, always=True`):
`return v or int(time.time())`.  `v` is `None` or an `int`; Python truthiness
makes both `None` and `0` fall through to the current time. -/
def Item_ts (v : Option Int) (now : Int) : Int :=
  match v with
  | none => now
  | some t => if t = 0 then now else t

/-- `QdrantMemory.upsert_memory`'s own defaulting, `ts = ts or int(time.time())`:
textually the same truthiness-based default as the `_ts` validator. -/
def upsertMemory_ts (ts : Option Int) (now : Int) : Int :=
  match ts with
  | none => now
  | some t => if t = 0 then now else t

/-- Pydantic construction of an `Item` from the request fields.  The field
types are `str` / `str` / `str` / `Optional[int]` / `Optional[dict]`; no
constraint beyond the type is declared, so construction never fails -- the
`Option` result records that no `ValidationError` path exists. -/
def mkItem (text conversation_id role : String) (timestamp : Option Int)
    (extra : Option Payload) (now : Int) : Option Item :=
  some { text := text, conversation_id := conversation_id, role := role,
         timestamp := Item_ts timestamp now, extra_payload := extra }

/-- The reserved dict literal built by `_store` / `upsert_memory`:
`{"text": ..., "role": ..., "conversation_id": ..., "ts": ...}`. -/
def basePayload (itm : Item) : Payload :=
  [("text", Val.str itm.text), ("role", Val.str itm.role),
   ("conversation_id", Val.str itm.conversation_id), ("ts", Val.int itm.timestamp)]

/-- Payload construction of `_store` / `upsert_memory`: the reserved dict,
then `if itm.extra_payload: payload.update(itm.extra_payload)` (both `None`
and the empty dict are falsy). -/
def mkPayload (itm : Item) : Payload :=
  match itm.extra_payload with
  | none => basePayload itm
  | some extra => if extra = [] then basePayload itm else dictUpdate (basePayload itm) extra

/-- An embedding vector.  Its coordinates are opaque to every property here. -/
abbrev Vec := List Int

/-- A point handed to the store's upsert primitive
(`models.PointStruct(id=..., vector=..., payload=...)`). -/
structure PointStruct where
  id : String
  vector : Vec
  payload : Payload
deriving DecidableEq, Repr

/-- Ingestor `_embed`: one POST to the embed head per text, collected by a
list comprehension.  A failing call raises, aborting the whole comprehension,
hence the `Option` on the list. -/
def _embed (e : String → Option Vec) : List String → Option (List Vec)
  | [] => some []
  | t :: ts =>
      match e t with
      | none => none
      | some v =>
          match _embed e ts with
          | none => none
          | some vs => some (v :: vs)

/-- The point-building loop of `_store`: one `PointStruct` per (item, vector)
pair, in order, each with a fresh `uuid4()` token -- modelled by the supply
`uuids` consumed one index per loop iteration. -/
def buildPoints (uuids : Nat → String) (idx : Nat) : List (Item × Vec) → List PointStruct
  | [] => []
  | (itm, vec) :: rest =>
      { id := uuids idx, vector := vec, payload := mkPayload itm }
        :: buildPoints uuids (idx + 1) rest

/-- Ingestor `_store`: embed every item's text, then build one point per
item and issue a single upsert of all points.  Any raised exception yields
`none` (HTTP 502) with nothing upserted; `some points` is the one upsert
call. -/
def _store (e : String → Option Vec) (uuids : Nat → String) (items : List Item) :
    Option (List PointStruct) :=
  match _embed e (items.map Item.text) with
  | none => none
  | some vectors => some (buildPoints uuids 0 (items.zip vectors))

/-- The point id built by `QdrantMemory.upsert_memory`:
`f"{conversation_id}-{ts}-{role}-{hash(text)}"`.  Python's `hash` is a
process-seeded function of the string, passed here as a parameter. -/
def upsertMemoryPointId (pyHash : String → Int) (conversation_id : String) (ts : Int)
    (role text : String) : String :=
  conversation_id ++ "-" ++ toString ts ++ "-" ++ role ++ "-" ++ toString (pyHash text)

/-- The vector store's schema state, as seen through the calls
`_ensure_collection` makes: the existing collection names plus counters for
the mutations issued (`recreate_collection` calls, `create_payload_index`
calls). -/
structure QdrantState where
  collections : List String
  created : Nat
  indexesCreated : Nat
deriving DecidableEq, Repr

/-- `_ensure_collection` (ingestor and `QdrantMemory` alike): if the name is
absent from the listed collections, create it and its two payload indexes
(`conversation_id` keyword, `ts` integer); otherwise do nothing. -/
def _ensure_collection (name : String) (s : QdrantState) : QdrantState :=
  if name ∈ s.collections then s
  else { collections := s.collections ++ [name],
         created := s.created + 1,
         indexesCreated := s.indexesCreated + 2 }

/-- The `k` constraint of `ContextReq`: `Field(default=6, gt=0, le=30)`. -/
def contextReqKOk (k : Int) : Bool :=
  decide (0 < k) && decide (k ≤ 30)

/-- One search hit as returned by the store: a payload plus a similarity
score (opaque to every property here). -/
structure Hit where
  payload : Payload
  score : Int
deriving DecidableEq, Repr

/-- One projected result of the retriever. -/
structure CtxResult where
  text : Val
  role : Val
  timestamp : Option Val
  score : Int
deriving DecidableEq, Repr

/-- The projection `top_k` applies to one hit:
`{"text": h.payload["text"], "role": h.payload.get("role", "unknown"),
"timestamp": h.payload.get("ts"), "score": h.score}`.  The bare indexing
`h.payload["text"]` raises `KeyError` when the key is absent (`none`); the
`.get` forms default instead. -/
def projectHit (ht : Hit) : Option CtxResult :=
  match plookup ht.payload "text" with
  | none => none
  | some t =>
      some { text := t, role := (plookup ht.payload "role").getD (Val.str "unknown"),
             timestamp := plookup ht.payload "ts", score := ht.score }

/-- The result comprehension of `qdrant_search.top_k` over the store's hits,
in order; a `KeyError` on any hit aborts the whole comprehension. -/
def top_k_results : List Hit → Option (List CtxResult)
  | [] => some []
  | ht :: rest =>
      match projectHit ht with
      | none => none
      | some r =>
          match top_k_results rest with
          | none => none
          | some rs => some (r :: rs)

/-- The projection `QdrantMemory.search` applies to one hit: `text`, `role`
and `ts` are all read with bare indexing, so any of the three missing raises. -/
def searchProjectHit (ht : Hit) : Option CtxResult :=
  match plookup ht.payload "text", plookup ht.payload "role", plookup ht.payload "ts" with
  | some t, some r, some ts => some { text := t, role := r, timestamp := some ts, score := ht.score }
  | _, _, _ => none

/-- The result comprehension of `QdrantMemory.search` over the store's hits. -/
def search_results : List Hit → Option (List CtxResult)
  | [] => some []
  | ht :: rest =>
      match searchProjectHit ht with
      | none => none
      | some r =>
          match search_results rest with
          | none => none
          | some rs => some (r :: rs)

/-- Outcome of the store's search call inside `top_k`: either the hit list,
or the call raised (store unreachable / search rejected). -/
inductive SearchOutcome where
  | hits (hs : List Hit)
  | storeError (msg : String)

/-- How a `top_k` call fails. -/
inductive CtxError where
  | storage (msg : String)
  | keyError
deriving DecidableEq, Repr

/-- `qdrant_search.top_k` end to end: a raising search call propagates as a
storage failure; otherwise the hits are projected, where a payload missing
`"text"` raises `KeyError`. -/
def top_k_run : SearchOutcome → Except CtxError (List CtxResult)
  | .storeError m => .error (.storage m)
  | .hits hs =>
      match top_k_results hs with
      | none => .error .keyError
      | some rs => .ok rs

/-! ## Supporting lemmas -/

theorem not_mem_map_fst_of_plookup_eq_none (e : Payload) (key : String)
    (h : plookup e key = none) : key ∉ e.map Prod.fst := by
  induction e with
  | nil => simp
  | cons kv rest ih =>
      obtain ⟨k, v⟩ := kv
      rw [plookup_cons] at h
      by_cases hk : k = key
      · simp [hk] at h
      · rw [if_neg hk] at h
        simp only [List.map_cons, List.mem_cons, not_or]
        exact ⟨fun he => hk he.symm, ih h⟩

theorem _embed_eq_none_iff (e : String → Option Vec) (ts : List String) :
    _embed e ts = none ↔ ∃ t ∈ ts, e t = none := by
  induction ts with
  | nil => simp [_embed]
  | cons t rest ih =>
      rw [_embed]
      cases he : e t with
      | none =>
          exact iff_of_true rfl ⟨t, List.mem_cons_self t rest, he⟩
      | some v =>
          cases hr : _embed e rest with
          | none =>
              obtain ⟨x, hx, hxe⟩ := ih.mp hr
              exact iff_of_true rfl ⟨x, List.mem_cons_of_mem t hx, hxe⟩
          | some vs =>
              refine iff_of_false (by simp) ?_
              rintro ⟨x, hx, hxe⟩
              rcases List.mem_cons.mp hx with rfl | hx'
              · rw [he] at hxe; cases hxe
              · rw [ih.mpr ⟨x, hx', hxe⟩] at hr; cases hr

/-! ## Claims -/

/-- Claim C1 (corrected): contrary to the claim, the merge performed by
`_store` / `upsert_memory` gives `extra_payload` -- not the four reserved
keys -- precedence on conflict: an `extra_payload` binding for `"text"`
silently overwrites the reserved text value in the stored payload. -/
theorem C1_counterexample :
    plookup (mkPayload { text := "hello", conversation_id := "c1", role := "user",
                         timestamp := 5, extra_payload := some [("text", Val.str "evil")] }) "text"
      = some (Val.str "evil")
    ∧ Val.str "evil" ≠ Val.str "hello" := by
  exact ⟨rfl, by decide⟩

/-- Claim C1, amended: the stored payload is the merge of the reserved dict
and `extra_payload` with `extra_payload` taking precedence on conflict
(Python `dict.update` semantics): every key reads as its `extra_payload`
binding when one exists, and as its reserved binding otherwise. -/
theorem C1_merge_extra_payload_wins (itm : Item) (extra : Payload)
    (hx : itm.extra_payload = some extra) (hnd : (extra.map Prod.fst).Nodup)
    (key : String) :
    plookup (mkPayload itm) key
      = (plookup extra key <|> plookup (basePayload itm) key) := by
  cases hv : plookup extra key with
  | some v =>
      have hne : extra ≠ [] := by rintro rfl; simp at hv
      simp only [mkPayload, hx, if_neg hne, Option.some_orElse]
      exact plookup_dictUpdate_of_mem (basePayload itm) extra key v hnd hv
  | none =>
      by_cases hne : extra = []
      · subst hne
        simp [mkPayload, hx]
      · simp only [mkPayload, hx, if_neg hne, Option.none_orElse]
        exact plookup_dictUpdate_of_not_mem (basePayload itm) extra key
          (not_mem_map_fst_of_plookup_eq_none extra key hv)

/-- Witness for C1: concrete item whose `extra_payload` carries a
non-reserved key. -/
theorem C1_merge_witness :
    plookup (mkPayload { text := "hi", conversation_id := "c9", role := "user",
                         timestamp := 3, extra_payload := some [("source", Val.str "import-job")] })
        "source"
      = (plookup [("source", Val.str "import-job")] "source"
          <|> plookup (basePayload { text := "hi", conversation_id := "c9", role := "user",
                                     timestamp := 3,
                                     extra_payload := some [("source", Val.str "import-job")] })
                "source") :=
  C1_merge_extra_payload_wins _ [("source", Val.str "import-job")] rfl (by decide) "source"

/-- Claim C5 (confirmed): `ContextReq.k` is declared `Field(gt=0, le=30)`,
so the request validation accepts exactly `1 ≤ k ≤ 30`; `k = 0` and `k = 31`
are rejected. -/
theorem C5_k_bounded (k : Int) :
    contextReqKOk 0 = false ∧ contextReqKOk 31 = false
    ∧ (contextReqKOk k = true ↔ (1 ≤ k ∧ k ≤ 30)) := by
  refine ⟨by decide, by decide, ?_⟩
  simp only [contextReqKOk, Bool.and_eq_true, decide_eq_true_eq]
  omega

/-- Witness for C5 at the in-bound value `k = 6` (the default). -/
theorem C5_k_bounded_witness : contextReqKOk 6 = true :=
  (C5_k_bounded 6).2.2.mpr (by decide)

/-- Claim C7 (confirmed): `_ensure_collection` is a no-op (no creation, no
index creation, no state change at all) when the collection exists, and on a
fresh deployment two consecutive calls perform exactly one creation (with its
two index creations) on the first call and nothing on the second. -/
theorem C7_ensure_collection_idempotent (name : String) (s : QdrantState) :
    (name ∈ s.collections → _ensure_collection name s = s)
    ∧ (name ∉ s.collections →
        (_ensure_collection name s).created = s.created + 1
        ∧ (_ensure_collection name s).indexesCreated = s.indexesCreated + 2
        ∧ _ensure_collection name (_ensure_collection name s) = _ensure_collection name s) := by
  constructor
  · intro h
    simp [_ensure_collection, h]
  · intro h
    have h1 : _ensure_collection name s
        = { collections := s.collections ++ [name], created := s.created + 1,
            indexesCreated := s.indexesCreated + 2 } := by
      simp [_ensure_collection, h]
    have h2 : name ∈ (_ensure_collection name s).collections := by
      rw [h1]; simp
    exact ⟨by rw [h1], by rw [h1], by rw [_ensure_collection, if_pos h2]⟩

/-- Witness for C7: fresh deployment (no collections), collection name
`"memories"`. -/
theorem C7_ensure_collection_witness :
    (_ensure_collection "memories" { collections := [], created := 0, indexesCreated := 0 }).created
        = 0 + 1
    ∧ _ensure_collection "memories"
        (_ensure_collection "memories" { collections := [], created := 0, indexesCreated := 0 })
      = _ensure_collection "memories" { collections := [], created := 0, indexesCreated := 0 } :=
  ⟨((C7_ensure_collection_idempotent "memories"
      { collections := [], created := 0, indexesCreated := 0 }).2 (by decide)).1,
   ((C7_ensure_collection_idempotent "memories"
      { collections := [], created := 0, indexesCreated := 0 }).2 (by decide)).2.2⟩

/-- Claim C9 (confirmed): the truthiness-based defaults (`v or int(time.time())`
in the `Item._ts` validator and `ts or int(time.time())` in `upsert_memory`)
treat the legitimate epoch value `0` exactly like an omitted timestamp, so no
item constructed by the writer ever carries timestamp `0` (the current time
being nonzero). -/
theorem C9_timestamp_zero_replaced (now : Int) (h : now ≠ 0)
    (text cid role : String) (extra : Option Payload) :
    mkItem text cid role (some 0) extra now = mkItem text cid role none extra now
    ∧ upsertMemory_ts (some 0) now = upsertMemory_ts none now
    ∧ (∀ v itm, mkItem text cid role v extra now = some itm → itm.timestamp ≠ 0) := by
  refine ⟨rfl, rfl, ?_⟩
  intro v itm hitm
  rw [mkItem] at hitm
  injection hitm with hitm
  subst hitm
  cases v with
  | none => simpa [Item_ts] using h
  | some t =>
      by_cases ht : t = 0
      · simp [Item_ts, ht]
        exact h
      · simp [Item_ts, ht]

/-- Witness for C9 at `now = 100`. -/
theorem C9_timestamp_zero_witness :
    mkItem "hello" "c1" "user" (some 0) none 100 = mkItem "hello" "c1" "user" none none 100 :=
  (C9_timestamp_zero_replaced 100 (by decide) "hello" "c1" "user" none).1

/-- Claim C2 (confirmed): `_store` is all-or-nothing at batch granularity.
If any item's embedding call fails, `_store` aborts before its single upsert
and nothing is stored; conversely, a successful store implies every item's
embedding was obtained (the upsert is issued only after all embeddings). -/
theorem C2_batch_all_or_nothing (e : String → Option Vec) (uuids : Nat → String)
    (items : List Item) :
    ((∃ itm ∈ items, e itm.text = none) → _store e uuids items = none)
    ∧ (∀ ps, _store e uuids items = some ps → ∀ itm ∈ items, (e itm.text).isSome) := by
  constructor
  · rintro ⟨itm, hmem, he⟩
    have hemb : _embed e (items.map Item.text) = none :=
      (_embed_eq_none_iff e (items.map Item.text)).mpr
        ⟨itm.text, List.mem_map_of_mem Item.text hmem, he⟩
    simp [_store, hemb]
  · intro ps hps itm hmem
    by_contra hbad
    rw [Option.not_isSome_iff_eq_none] at hbad
    have hemb : _embed e (items.map Item.text) = none :=
      (_embed_eq_none_iff e (items.map Item.text)).mpr
        ⟨itm.text, List.mem_map_of_mem Item.text hmem, hbad⟩
    simp [_store, hemb] at hps

/-- Witness for C2: a one-item batch whose embedding backend fails stores
nothing. -/
theorem C2_batch_witness :
    _store (fun _ => none) (fun _ => "uuid-0")
        [{ text := "hello", conversation_id := "c1", role := "user", timestamp := 7,
           extra_payload := none }] = none :=
  (C2_batch_all_or_nothing (fun _ => none) (fun _ => "uuid-0")
      [{ text := "hello", conversation_id := "c1", role := "user", timestamp := 7,
         extra_payload := none }]).1
    ⟨{ text := "hello", conversation_id := "c1", role := "user", timestamp := 7,
       extra_payload := none }, by simp, rfl⟩

/-- Claim C3 (corrected): contrary to the claim, nothing validates
non-emptiness.  An item with empty `text` and empty `conversation_id` passes
pydantic construction (its fields are bare `str`), the embedding request is
issued for the empty text, and a Memory is stored. -/
theorem C3_counterexample :
    mkItem "" "" "user" none none 100
      = some { text := "", conversation_id := "", role := "user", timestamp := 100,
               extra_payload := none }
    ∧ _store (fun _ => some [1]) (fun n => toString n)
        [{ text := "", conversation_id := "", role := "user", timestamp := 100,
           extra_payload := none }]
      = some [{ id := "0", vector := [1],
                payload := [("text", Val.str ""), ("role", Val.str "user"),
                            ("conversation_id", Val.str ""), ("ts", Val.int 100)] }] :=
  ⟨rfl, rfl⟩

/-- Claim C3, amended: the writer performs no non-emptiness check.  For every
field assignment -- empty strings included -- pydantic construction yields an
item unchanged, and `_store` proceeds to embed and store it. -/
theorem C3_no_emptiness_validation (text cid role : String) (ts : Option Int)
    (extra : Option Payload) (now : Int) (e : String → Option Vec)
    (uuids : Nat → String) (v : Vec) (he : e text = some v) :
    ∃ itm, mkItem text cid role ts extra now = some itm
      ∧ itm.text = text ∧ itm.conversation_id = cid ∧ (_store e uuids [itm]).isSome := by
  refine ⟨_, rfl, rfl, rfl, ?_⟩
  simp [_store, _embed, he]

/-- Witness for C3: the all-empty item is embedded and stored. -/
theorem C3_no_validation_witness :
    ∃ itm, mkItem "" "" "user" none none 100 = some itm
      ∧ itm.text = "" ∧ itm.conversation_id = ""
      ∧ (_store (fun _ => some [2]) (fun _ => "uuid-a") [itm]).isSome :=
  C3_no_emptiness_validation "" "" "user" none none 100 (fun _ => some [2])
    (fun _ => "uuid-a") [2] rfl

/-- Claim C4 (corrected): the two write paths do not share one identifier
policy.  Ingesting the same item twice through `_store` yields two points
with distinct fresh uuid tokens (`"0"` and `"1"` under the modelled supply),
refuting a global deterministic policy (b); `upsert_memory` computes the same
id for every re-ingestion of an identical item, refuting a global
fresh-random policy (a). -/
theorem C4_counterexample :
    (_store (fun _ => some [1]) (fun n => toString n)
        [{ text := "dup", conversation_id := "c1", role := "user", timestamp := 5,
           extra_payload := none },
         { text := "dup", conversation_id := "c1", role := "user", timestamp := 5,
           extra_payload := none }]).map (fun ps => ps.map PointStruct.id)
      = some ["0", "1"]
    ∧ ("0" : String) ≠ "1"
    ∧ upsertMemoryPointId (fun s => Int.ofNat s.length) "c1" 5 "user" "dup"
        = upsertMemoryPointId (fun s => Int.ofNat s.length) "c1" 5 "user" "dup" :=
  ⟨rfl, by decide, rfl⟩

/-- Claim C4, amended: each path is consistent only with itself.  `_store`
follows policy (a): each stored point consumes a fresh token from the uuid
supply, so a duplicated item yields two points with distinct ids whenever the
supply's tokens differ.  `upsert_memory` follows per-process policy (b): its
id is a pure function of `(conversation_id, ts, role, hash(text))`. -/
theorem C4_two_id_policies (uuids : Nat → String) (h01 : uuids 0 ≠ uuids 1)
    (itm : Item) (e : String → Option Vec) (v : Vec) (he : e itm.text = some v)
    (pyHash : String → Int) (cid : String) (ts : Int) (role text : String) :
    (∃ p0 p1, _store e uuids [itm, itm] = some [p0, p1] ∧ p0.id ≠ p1.id)
    ∧ upsertMemoryPointId pyHash cid ts role text
        = upsertMemoryPointId pyHash cid ts role text := by
  refine ⟨⟨{ id := uuids 0, vector := v, payload := mkPayload itm },
           { id := uuids 1, vector := v, payload := mkPayload itm }, ?_, h01⟩, rfl⟩
  simp [_store, _embed, he, buildPoints]

/-- Witness for C4: concrete duplicate item under the supply `toString`. -/
theorem C4_two_id_policies_witness :
    (∃ p0 p1, _store (fun _ => some [3]) (fun n => toString n)
        [{ text := "dup2", conversation_id := "c2", role := "user", timestamp := 6,
           extra_payload := none },
         { text := "dup2", conversation_id := "c2", role := "user", timestamp := 6,
           extra_payload := none }] = some [p0, p1] ∧ p0.id ≠ p1.id)
    ∧ upsertMemoryPointId (fun s => Int.ofNat s.length) "c2" 6 "user" "dup2"
        = upsertMemoryPointId (fun s => Int.ofNat s.length) "c2" 6 "user" "dup2" :=
  C4_two_id_policies (fun n => toString n) (by decide)
    { text := "dup2", conversation_id := "c2", role := "user", timestamp := 6,
      extra_payload := none }
    (fun _ => some [3]) [3] rfl (fun s => Int.ofNat s.length) "c2" 6 "user" "dup2"

/-- Projection of a hit list in which every payload carries `"text"`:
the comprehension succeeds and relates hits to results pointwise, in order. -/
theorem top_k_results_eq_some (hs : List Hit)
    (h : ∀ ht ∈ hs, (plookup ht.payload "text").isSome) :
    ∃ rs, top_k_results hs = some rs ∧
      List.Forall₂ (fun (ht : Hit) (r : CtxResult) =>
        some r.text = plookup ht.payload "text"
        ∧ r.role = (plookup ht.payload "role").getD (Val.str "unknown")
        ∧ r.timestamp = plookup ht.payload "ts"
        ∧ r.score = ht.score) hs rs := by
  induction hs with
  | nil => exact ⟨[], rfl, List.Forall₂.nil⟩
  | cons ht rest ih =>
      obtain ⟨t, hts⟩ := Option.isSome_iff_exists.mp (h ht (List.mem_cons_self ht rest))
      obtain ⟨rs, hrs, hfa⟩ := ih (fun x hx => h x (List.mem_cons_of_mem ht hx))
      refine ⟨{ text := t, role := (plookup ht.payload "role").getD (Val.str "unknown"),
                timestamp := plookup ht.payload "ts", score := ht.score } :: rs,
              ?_, List.Forall₂.cons ⟨hts.symm, rfl, rfl, rfl⟩ hfa⟩
      simp [top_k_results, projectHit, hts, hrs]

/-- A hit whose payload lacks `"text"` makes the `top_k` comprehension raise. -/
theorem top_k_results_eq_none (hs : List Hit)
    (hex : ∃ ht ∈ hs, plookup ht.payload "text" = none) :
    top_k_results hs = none := by
  induction hs with
  | nil => simp at hex
  | cons h0 rest ih =>
      rw [top_k_results]
      obtain ⟨ht, hmem, hnone⟩ := hex
      rcases List.mem_cons.mp hmem with heq | hmem'
      · subst heq
        simp [projectHit, hnone]
      · rw [ih ⟨ht, hmem', hnone⟩]
        cases projectHit h0 <;> rfl

/-- A hit whose payload lacks any of `"text"`, `"role"`, `"ts"` makes the
`QdrantMemory.search` projection raise. -/
theorem searchProjectHit_eq_none (ht : Hit)
    (h : plookup ht.payload "text" = none ∨ plookup ht.payload "role" = none
         ∨ plookup ht.payload "ts" = none) :
    searchProjectHit ht = none := by
  cases hx : plookup ht.payload "text" <;> cases hy : plookup ht.payload "role" <;>
    cases hz : plookup ht.payload "ts" <;>
      simp [searchProjectHit, hx, hy, hz] at h ⊢

theorem search_results_eq_none (hs : List Hit)
    (hex : ∃ ht ∈ hs, plookup ht.payload "text" = none ∨ plookup ht.payload "role" = none
           ∨ plookup ht.payload "ts" = none) :
    search_results hs = none := by
  induction hs with
  | nil => simp at hex
  | cons h0 rest ih =>
      rw [search_results]
      obtain ⟨ht, hmem, hnone⟩ := hex
      rcases List.mem_cons.mp hmem with heq | hmem'
      · subst heq
        rw [searchProjectHit_eq_none ht hnone]
      · rw [ih ⟨ht, hmem', hnone⟩]
        cases searchProjectHit h0 <;> rfl

/-- Claim C6 (corrected): over hit lists whose payloads all carry `"text"`,
`top_k` returns exactly the store's hits in the same order, each projected to
(text, role, timestamp, score) with `role` defaulting to `"unknown"` and
`timestamp` to absent when missing.  As universally stated the claim fails:
a hit without `"text"` is not projected at all (see the counterexample). -/
theorem C6_projection_with_defaults (hits : List Hit)
    (h : ∀ ht ∈ hits, (plookup ht.payload "text").isSome) :
    ∃ rs, top_k_results hits = some rs ∧
      List.Forall₂ (fun (ht : Hit) (r : CtxResult) =>
        some r.text = plookup ht.payload "text"
        ∧ r.role = (plookup ht.payload "role").getD (Val.str "unknown")
        ∧ r.timestamp = plookup ht.payload "ts"
        ∧ r.score = ht.score) hits rs :=
  top_k_results_eq_some hits h

/-- Counterexample for C6 as stated: the store returns one hit lacking
`"text"` and `top_k` raises instead of returning a projected list. -/
theorem C6_counterexample :
    top_k_results [{ payload := [("role", Val.str "user")], score := 3 }] = none := rfl

/-- Witness for C6: two hits, one missing `"role"` and `"ts"`. -/
theorem C6_projection_witness :
    ∃ rs, top_k_results
        [{ payload := [("text", Val.str "a"), ("role", Val.str "assistant"),
                       ("ts", Val.int 11)], score := 9 },
         { payload := [("text", Val.str "b")], score := 7 }] = some rs ∧
      List.Forall₂ (fun (ht : Hit) (r : CtxResult) =>
        some r.text = plookup ht.payload "text"
        ∧ r.role = (plookup ht.payload "role").getD (Val.str "unknown")
        ∧ r.timestamp = plookup ht.payload "ts"
        ∧ r.score = ht.score)
        [{ payload := [("text", Val.str "a"), ("role", Val.str "assistant"),
                       ("ts", Val.int 11)], score := 9 },
         { payload := [("text", Val.str "b")], score := 7 }] rs :=
  C6_projection_with_defaults
    [{ payload := [("text", Val.str "a"), ("role", Val.str "assistant"),
                   ("ts", Val.int 11)], score := 9 },
     { payload := [("text", Val.str "b")], score := 7 }] (by decide)

/-- Claim C8 (corrected): with well-formed hits (each payload carrying
`"text"`), receiving fewer than `k` hits -- zero included -- is not an error:
`top_k` returns exactly as many results as hits; and a raising search call
fails with the storage error.  As universally stated the claim's "only a
store failure fails" is refuted: a payload missing `"text"` raises too (see
the counterexample). -/
theorem C8_fewer_hits_not_error (k : Nat) (hs : List Hit) (_hk : hs.length ≤ k)
    (h : ∀ ht ∈ hs, (plookup ht.payload "text").isSome) :
    (∃ rs, top_k_run (SearchOutcome.hits hs) = Except.ok rs ∧ rs.length = hs.length)
    ∧ (∀ m, top_k_run (SearchOutcome.storeError m) = Except.error (CtxError.storage m)) := by
  obtain ⟨rs, hrs, hfa⟩ := top_k_results_eq_some hs h
  exact ⟨⟨rs, by simp [top_k_run, hrs], (List.Forall₂.length_eq hfa).symm⟩, fun m => rfl⟩

/-- Counterexample for C8 as stated: the store search succeeds, yet `top_k`
fails -- with a `KeyError`, not a storage error -- on a payload lacking
`"text"`. -/
theorem C8_counterexample :
    top_k_run (SearchOutcome.hits [{ payload := [("role", Val.str "user")], score := 1 }])
      = Except.error CtxError.keyError := rfl

/-- Witness for C8: zero hits under `k = 6` yield `ok []`, not an error. -/
theorem C8_fewer_hits_witness :
    (∃ rs, top_k_run (SearchOutcome.hits []) = Except.ok rs ∧ rs.length = ([] : List Hit).length)
    ∧ (∀ m, top_k_run (SearchOutcome.storeError m) = Except.error (CtxError.storage m)) :=
  C8_fewer_hits_not_error 6 [] (by decide) (by decide)

/-- Claim C10 (confirmed): a store response containing a hit whose payload
lacks `"text"` makes `top_k` raise (unguarded `h.payload["text"]`) instead of
returning a projection, and in `QdrantMemory.search` a payload lacking
`"text"`, `"role"` or `"ts"` likewise raises. -/
theorem C10_missing_text_raises (hits : List Hit) :
    ((∃ ht ∈ hits, plookup ht.payload "text" = none) → top_k_results hits = none)
    ∧ ((∃ ht ∈ hits, plookup ht.payload "text" = none ∨ plookup ht.payload "role" = none
        ∨ plookup ht.payload "ts" = none) → search_results hits = none) :=
  ⟨top_k_results_eq_none hits, search_results_eq_none hits⟩

/-- Witness for C10: one hit with only a `"role"` binding makes `top_k`
raise; one hit with only `"text"` and `"role"` makes `search` raise. -/
theorem C10_missing_text_witness :
    top_k_results [{ payload := [("role", Val.str "x")], score := 2 }] = none
    ∧ search_results [{ payload := [("text", Val.str "x"), ("role", Val.str "user")],
                        score := 2 }] = none :=
  ⟨(C10_missing_text_raises [{ payload := [("role", Val.str "x")], score := 2 }]).1
     ⟨{ payload := [("role", Val.str "x")], score := 2 }, by simp, rfl⟩,
   (C10_missing_text_raises
       [{ payload := [("text", Val.str "x"), ("role", Val.str "user")], score := 2 }]).2
     ⟨{ payload := [("text", Val.str "x"), ("role", Val.str "user")], score := 2 },
      by simp, Or.inr (Or.inr rfl)⟩⟩
